import Mathlib

set_option linter.unusedVariables false

/-! Shallow embedding of the signed-URL signer of storage/src/bucket.rs and
of the service-account token sources of
foundation/auth/src/token_source/service_account_token_source.rs and
foundation/auth/src/credentials.rs, together with theorems checking the
specification of the repository against the embedded code. Instants are
Unix timestamps in whole seconds, carried as Int. -/

/-- Lexicographic order on character lists. Rust compares strings by their
UTF-8 bytes; UTF-8 byte order agrees with code-point order, which is what
this function computes. -/
def charListLe : List Char → List Char → Bool
  | [], _ => true
  | _ :: _, [] => false
  | a :: as, b :: bs => if a = b then charListLe as bs else decide (a < b)

/-- String order used by the Vec sort calls in the source. -/
def strLe (a b : String) : Bool := charListLe a.data b.data

/-- Stable insertion into a sorted list, used to model the stable Vec sort. -/
def insertSorted (x : String) : List String → List String
  | [] => [x]
  | y :: ys => if strLe x y then x :: y :: ys else y :: insertSorted x ys

/-- Stable sort of a list of strings, modelling Vec sort. -/
def sortStrings (l : List String) : List String := l.foldr insertSorted []

/-- Upper-casing of a string, character by character, modelling the Rust
to_uppercase call; the method names compared here are ASCII. -/
def strToUpper (s : String) : String := ⟨s.data.map Char.toUpper⟩

/-- Lower-casing of a string, character by character, modelling the Rust
to_lowercase calls on ASCII header names. -/
def strToLower (s : String) : String := ⟨s.data.map Char.toLower⟩

/-- Split on a character with an accumulator for the current component. -/
def splitOnCharAux (c : Char) : List Char → List Char → List (List Char)
  | [], acc => [acc.reverse]
  | x :: xs, acc =>
    if x = c then acc.reverse :: splitOnCharAux c xs []
    else splitOnCharAux c xs (x :: acc)

/-- Split of a string on a character; the result always has at least one
component, like the Rust split iterator collected into a vector. -/
def splitOnChar (c : Char) (s : String) : List String :=
  (splitOnCharAux c s.data []).map (fun l => ⟨l⟩)

/-- Whitespace test of the trim calls. -/
def isWsChar (c : Char) : Bool := c == ' ' || c == '\t' || c == '\n' || c == '\r'

/-- Trim of leading and trailing whitespace, modelling the Rust str trim. -/
def strTrim (s : String) : String :=
  ⟨((s.data.dropWhile isWsChar).reverse.dropWhile isWsChar).reverse⟩

/-- Prefix test on strings, modelling the Rust starts_with. -/
def strStartsWith (s pre : String) : Bool := pre.data.isPrefixOf s.data

/-- Character membership in a string, modelling the Rust str contains. -/
def strContainsChar (s : String) (c : Char) : Bool := s.data.contains c

/-- Value of one character of the standard base64 alphabet, as used by the
decode function of the base64 crate. -/
def b64Val (c : Char) : Option Nat :=
  if 'A' ≤ c ∧ c ≤ 'Z' then some (c.toNat - 65)
  else if 'a' ≤ c ∧ c ≤ 'z' then some (c.toNat - 71)
  else if '0' ≤ c ∧ c ≤ '9' then some (c.toNat + 4)
  else if c = '+' then some 62
  else if c = '/' then some 63
  else none

/-- Sextet groups to bytes. A trailing group of one sextet is an invalid
length; trailing groups of two or three sextets must have zero spare bits,
as in the base64 crate with trailing bits disallowed. -/
def b64Groups : List Nat → Option (List Nat)
  | [] => some []
  | a :: b :: c :: d :: rest =>
    (b64Groups rest).map (fun bs =>
      (a * 4 + b / 16) :: (b % 16 * 16 + c / 4) :: (c % 4 * 64 + d) :: bs)
  | [a, b] => if b % 16 = 0 then some [a * 4 + b / 16] else none
  | [a, b, c] => if c % 4 = 0 then some [a * 4 + b / 16, b % 16 * 16 + c / 4] else none
  | [_] => none

/-- Strip up to two padding characters from the end of the input; a padding
character anywhere else is invalid. -/
def stripPad (cs : List Char) : Option (List Char) :=
  let rev := cs.reverse
  let pads := rev.takeWhile (· == '=')
  let body := rev.dropWhile (· == '=')
  if pads.length ≤ 2 ∧ body.contains '=' = false then some body.reverse else none

/-- Decode of the base64 crate over the standard alphabet, modelled with
optional trailing padding. Returns the decoded bytes, or none on any
invalid character, invalid length or nonzero spare bits. -/
def base64Decode (s : String) : Option (List Nat) := do
  let body ← stripPad s.data
  let sextets ← body.mapM b64Val
  b64Groups sextets

/-- Signing scheme of storage/src/bucket.rs; the source declares only the
V4 variant. -/
inductive SigningScheme
  | SigningSchemeV4
deriving DecidableEq

/-- Error type of the signed-URL module (bucket.rs lines 128-132). -/
inductive SignedURLError
  | InvalidOption (msg : String)
deriving DecidableEq

/-- SignedURLOptions (bucket.rs lines 33-126). The private key is its byte
vector; sign_bytes keeps only the presence of the custom signing closure,
which is all that validation inspects; the URL style trait object is
replaced by passing the style-resolved host to the functions that need it;
the expiry is a Unix timestamp in seconds. -/
structure SignedURLOptions where
  google_access_id : String
  private_key : List Nat
  sign_bytes : Option Unit
  method : String
  expires : Int
  content_type : String
  headers : List String
  query_parameters : List (String × List String)
  md5 : String
  insecure : Bool
  scheme : SigningScheme
deriving DecidableEq

/-- Allowed methods (bucket.rs line 14). -/
def signed_url_methods : List String := ["DELETE", "GET", "HEAD", "POST", "PUT"]

/-- MD5 branch of validate_options (bucket.rs lines 324-333). -/
def md5_check (md5 : String) : Except SignedURLError Unit :=
  if md5 = "" then .ok ()
  else
    match base64Decode md5 with
    | some v =>
      if v.length ≠ 16 then .error (.InvalidOption "storage: invalid MD5 checksum length")
      else .ok ()
    | none => .error (.InvalidOption "storage: invalid MD5 checksum")

/-- V4 branch of validate_options (bucket.rs lines 334-339): the cutoff is
now plus 604801 seconds and the code rejects unless the expiry is strictly
below the cutoff. -/
def scheme_check (opts : SignedURLOptions) (now : Int) : Except SignedURLError Unit :=
  match opts.scheme with
  | .SigningSchemeV4 =>
    if ¬ opts.expires < now + 604801 then
      .error (.InvalidOption "storage: expires must be within seven days from now")
    else .ok ()

/-- validate_options (bucket.rs lines 311-341). The chrono is_zero test on
the expiry is modelled as comparison of the Unix timestamp with 0; the
second branch fires only when the private key is empty and the custom
signer absent, exactly as in the source. -/
def validate_options (opts : SignedURLOptions) (now : Int) : Except SignedURLError Unit :=
  if opts.google_access_id = "" then
    .error (.InvalidOption "storage: missing required GoogleAccessID")
  else if opts.private_key = [] ∧ opts.sign_bytes = none then
    .error (.InvalidOption "storage: exactly one of PrivateKey or SignedBytes must be set")
  else if signed_url_methods.contains (strToUpper opts.method) = false then
    .error (.InvalidOption "storage: invalid HTTP method")
  else if opts.expires = 0 then
    .error (.InvalidOption "missing required expires option")
  else
    match md5_check opts.md5 with
    | .error e => .error e
    | .ok _ => scheme_check opts now

/-- signed_url (bucket.rs lines 144-153): the function validates the
options and then, the URL construction being an unimplemented TODO in the
source, returns the empty string. It never calls signed_url_v4. -/
def signed_url (name : String) (object : String) (opts : SignedURLOptions) (now : Int) :
    Except SignedURLError String :=
  match validate_options opts now with
  | .error e => .error e
  | .ok _ => .ok ""

/-- extract_header_names (bucket.rs lines 302-309): the component of each
header before the first colon, taken verbatim, with no trimming and no
case folding. -/
def extract_header_names (kvs : List String) : List String :=
  kvs.map (fun h => (splitOnChar ':' h).headD "")

/-- Signed-header name list of signed_url_v4 (bucket.rs lines 218-227):
the extracted names, then host, then content-type and content-md5 when the
corresponding option fields are non-empty, sorted. -/
def signed_header_names (opts : SignedURLOptions) : List String :=
  sortStrings (extract_header_names opts.headers ++ ["host"] ++
    (if opts.content_type = "" then [] else ["content-type"]) ++
    (if opts.md5 = "" then [] else ["content-md5"]))

/-- X-Goog-SignedHeaders value (bucket.rs line 228): semicolon join of the
sorted names. -/
def signed_headers (opts : SignedURLOptions) : String :=
  String.intercalate ";" (signed_header_names opts)

/-- header_with_value of signed_url_v4 (bucket.rs lines 254-262): the host
entry, the raw extension headers, then content-type and content-md5 when
non-empty, sorted as whole strings. -/
def header_with_value (host : String) (opts : SignedURLOptions) : List String :=
  sortStrings (("host:" ++ host) :: opts.headers ++
    (if opts.content_type = "" then [] else ["content-type:" ++ opts.content_type]) ++
    (if opts.md5 = "" then [] else ["content-md5:" ++ opts.md5]))

/-- Canonical headers string of signed_url_v4 (bucket.rs line 263): the
sorted entries joined with a single space; the canonical request buffer
then receives this string followed by two newline characters. -/
def canonical_headers (host : String) (opts : SignedURLOptions) : String :=
  String.intercalate " " (header_with_value host opts)

/-- Everything after the first colon of a header string, modelling the
second component of splitn with limit two. -/
def after_first_colon (h : String) : String :=
  match splitOnChar ':' h with
  | [] => ""
  | _ :: rest => String.intercalate ":" rest

/-- Predicate of the payload-hash search (bucket.rs lines 271-272): a
lower-cased prefix test, not an exact name comparison. -/
def sha256_header_pred (h : String) : Bool :=
  strStartsWith (strToLower h) "x-goog-content-sha256" && strContainsChar h ':'

/-- Payload-hash bytes appended by signed_url_v4 (bucket.rs lines 267-281).
The source walks header_with_value with the itertools find_or_first
combinator: the predicate side effect appends the value of the first
matching header, and find_or_first falls back to the first element of the
list when nothing matches, so its is_some result is true for every
non-empty list and the UNSIGNED-PAYLOAD fallback is reached only when the
header list is empty, which never happens because the host entry is always
present. -/
def payload_hash_token (hs : List String) : String :=
  match hs.find? sha256_header_pred with
  | some h => after_first_colon h
  | none => if hs.isEmpty then "UNSIGNED-PAYLOAD" else ""

/-- Run collapse with a flag recording whether the previous character was
the collapsed one. -/
def collapseRunsAux (c : Char) : List Char → Bool → List Char
  | [], _ => []
  | x :: xs, inRun =>
    if x = c then
      if inRun then collapseRunsAux c xs true else c :: collapseRunsAux c xs true
    else x :: collapseRunsAux c xs false

/-- Collapse of character runs, modelling the space and tab regex
replacements of bucket.rs lines 12-13 and 183-184. -/
def collapseRuns (c : Char) (s : String) : String :=
  ⟨collapseRunsAux c s.data false⟩

/-- One header of v4_sanitize_headers (bucket.rs lines 176-192): entries
without a colon are skipped, the name is trimmed and lower-cased, the
value is trimmed and has its space runs and then its tab runs collapsed,
and entries whose value comes out empty are dropped. Only the component
between the first and the second colon is kept as the value, exactly as in
the source, which indexes the split at position one. -/
def sanitize_entry (hdr : String) : Option (String × String) :=
  match splitOnChar ':' (strTrim hdr) with
  | k :: v :: _ =>
    let key := strToLower (strTrim k)
    let value := collapseRuns '\t' (collapseRuns ' ' (strTrim v))
    if value = "" then none else some (key, value)
  | _ => none

/-- Name-to-values map of v4_sanitize_headers (bucket.rs lines 175-192),
modelled as an association list in insertion order. The source uses a
HashMap whose iteration order is unspecified; the theorems below do not
depend on that order. -/
def sanitize_map (hdrs : List String) : List (String × List String) :=
  hdrs.foldl
    (fun m hdr =>
      match sanitize_entry hdr with
      | some (k, v) =>
        if m.any (fun kv => kv.1 == k) then
          m.map (fun kv => if kv.1 == k then (kv.1, kv.2 ++ [v]) else kv)
        else m ++ [(k, [v])]
      | none => m)
    []

/-- Assignment through Vec indexing: an out-of-bounds write aborts the
program in Rust, modelled as none. -/
def vec_set (v : List String) (i : Nat) (x : String) : Option (List String) :=
  if i < v.length then some (v.set i x) else none

/-- Output loop of v4_sanitize_headers (bucket.rs lines 193-199): the
source creates the output vector with Vec with_capacity, which has length
zero, and then assigns through an index that counts up from zero. -/
def sanitize_emit : List (String × List String) → List String → Nat → Option (List String)
  | [], v, _ => some v
  | (k, vs) :: rest, v, i =>
    match vec_set v i (k ++ ":" ++ String.intercalate "," vs) with
    | some v2 => sanitize_emit rest v2 (i + 1)
    | none => none

/-- v4_sanitize_headers (bucket.rs lines 174-200). -/
def v4_sanitize_headers (hdrs : List String) : Option (List String) :=
  sanitize_emit (sanitize_map hdrs) [] 0

/-- Parsed RSA signing key handle; the key the jwt crate derives from a
PEM document is modelled by the material it was parsed from. -/
structure EncodingKey where
  pem : String
deriving DecidableEq

/-- Modelled from the spec: the error type of the auth crate (crate error
module, not under src). Section 7 distinguishes configuration errors such
as a missing private key from signing errors such as a key the parser
rejects. NoPrivateKeyFound is the variant named in credentials.rs line 97;
KeyRejected stands for the jwt key-parse failure converted by the question
mark operator on line 96. -/
inductive AuthError
  | NoPrivateKeyFound
  | KeyRejected
deriving DecidableEq

/-- CredentialsFile (foundation/auth/src/credentials.rs lines 31-57),
restricted to the fields this core reads; the remaining fields never flow
into the token sources. -/
structure CredentialsFile where
  client_email : Option String
  private_key_id : Option String
  private_key : Option String
  audience : Option String
  token_uri : Option String
deriving DecidableEq

/-- Modelled from the spec: the UnwrapOrEmpty helper of the auth crate
(crate misc module, not under src): a missing optional string becomes the
empty string. -/
def unwrap_or_empty : Option String → String
  | some s => s
  | none => ""

/-- try_to_private_key (credentials.rs lines 94-99). The PEM parser of the
jwt crate is an external collaborator, passed in as fromRsaPem, with none
standing for a parse failure on a present but malformed key. -/
def try_to_private_key (fromRsaPem : String → Option EncodingKey)
    (cred : CredentialsFile) : Except AuthError EncodingKey :=
  match cred.private_key with
  | some key =>
    match fromRsaPem key with
    | some k => .ok k
    | none => .error .KeyRejected
  | none => .error .NoPrivateKeyFound

/-- Claims (service_account_token_source.rs lines 13-21), with the same
field order as the source struct. -/
structure Claims where
  iss : String
  sub : Option String
  scope : Option String
  aud : String
  exp : Int
  iat : Int
deriving DecidableEq

/-- JSON values reached by the claim-set serialization. -/
inductive Json
  | str (s : String)
  | num (n : Int)
  | null
deriving DecidableEq

/-- Serialization of an optional string field by the derived serde
instance: an absent value is emitted as null. -/
def optStringJson : Option String → Json
  | some s => .str s
  | none => .null

/-- Serialization of Claims as the derived serde Serialize instance
produces it: every field is emitted, in declaration order, and an Option
field that is None is emitted as null, because the struct carries no
skip-serializing attribute. -/
def serialize_claims (c : Claims) : List (String × Json) :=
  [("iss", .str c.iss), ("sub", optStringJson c.sub), ("scope", optStringJson c.scope),
   ("aud", .str c.aud), ("exp", .num c.exp), ("iat", .num c.iat)]

/-- Escape of one character inside a JSON string. -/
def jsonEscapeChar (c : Char) : String :=
  if c = '\"' then "\\\"" else if c = '\\' then "\\\\" else String.singleton c

/-- Escape of a JSON string body. -/
def jsonEscape (s : String) : String := String.join (s.data.map jsonEscapeChar)

/-- Text of one JSON value. -/
def jsonValueText : Json → String
  | .str s => "\"" ++ jsonEscape s ++ "\""
  | .num n => toString n
  | .null => "null"

/-- Text of a JSON object given its fields in order. -/
def jsonObjText (fields : List (String × Json)) : String :=
  "\x7b" ++
    String.intercalate ","
      (fields.map (fun kv => "\"" ++ jsonEscape kv.1 ++ "\":" ++ jsonValueText kv.2)) ++
  "\x7d"

/-- UTF-8 bytes of one character. -/
def utf8Bytes (c : Char) : List Nat :=
  let n := c.toNat
  if n < 128 then [n]
  else if n < 2048 then [192 + n / 64, 128 + n % 64]
  else if n < 65536 then [224 + n / 4096, 128 + n / 64 % 64, 128 + n % 64]
  else [240 + n / 262144, 128 + n / 4096 % 64, 128 + n / 64 % 64, 128 + n % 64]

/-- UTF-8 bytes of a string. -/
def stringBytes (s : String) : List Nat := (s.data.map utf8Bytes).flatten

/-- Character of the base64url alphabet. -/
def b64UrlChar (n : Nat) : Char :=
  if n < 26 then Char.ofNat (65 + n)
  else if n < 52 then Char.ofNat (71 + n)
  else if n < 62 then Char.ofNat (n - 4)
  else if n = 62 then '-' else '_'

/-- Base64url encoding of a byte list, without padding. -/
def b64UrlEncodeBytes : List Nat → List Char
  | b1 :: b2 :: b3 :: rest =>
    b64UrlChar (b1 / 4) :: b64UrlChar (b1 % 4 * 16 + b2 / 16) ::
      b64UrlChar (b2 % 16 * 4 + b3 / 64) :: b64UrlChar (b3 % 64) :: b64UrlEncodeBytes rest
  | [b1, b2] => [b64UrlChar (b1 / 4), b64UrlChar (b1 % 4 * 16 + b2 / 16), b64UrlChar (b2 % 16 * 4)]
  | [b1] => [b64UrlChar (b1 / 4), b64UrlChar (b1 % 4 * 16)]
  | [] => []

/-- Base64url without padding over the UTF-8 bytes of a string, as the jwt
crate applies it to the serialized header and claim set. -/
def b64url (s : String) : String := ⟨b64UrlEncodeBytes (stringBytes s)⟩

/-- Header JSON of the Claims token method
(service_account_token_source.rs lines 24-27): algorithm RS256 with the
key id placed in kid; the jwt crate also emits typ JWT and skips its other
absent header fields. -/
def jwt_header_json (pk_id : String) : List (String × Json) :=
  [("typ", .str "JWT"), ("alg", .str "RS256"), ("kid", .str pk_id)]

/-- JWT assembly of the jwt crate: base64url of the serialized header, a
dot, base64url of the serialized claim set, a dot, and the signature over
the signing input. The RS256 signature is the external cryptographic
collaborator, passed in as sign. -/
def jwt_encode (sign : EncodingKey → String → String) (pk : EncodingKey) (pk_id : String)
    (c : Claims) : String :=
  let input := b64url (jsonObjText (jwt_header_json pk_id)) ++ "." ++
    b64url (jsonObjText (serialize_claims c))
  input ++ "." ++ sign pk input

/-- Claims token method (service_account_token_source.rs lines 23-30). -/
def Claims.token (sign : EncodingKey → String → String) (c : Claims) (pk : EncodingKey)
    (pk_id : String) : String :=
  jwt_encode sign pk pk_id c

/-- Modelled from the spec: Token of the auth crate (crate token module,
not under src); section 6 lists an access token string, a token type and
an optional expiry instant. -/
structure Token where
  access_token : String
  token_type : String
  expiry : Option Int
deriving DecidableEq

/-- Modelled from the spec: the well-known default token endpoint
TOKEN_URL of the crate token module (not under src); section 4.2 calls it
a well-known default, and its exact value plays no role in the theorems
below. -/
def TOKEN_URL : String := "https://oauth2.googleapis.com/token"

/-- ServiceAccountTokenSource (service_account_token_source.rs lines
35-40). -/
structure ServiceAccountTokenSource where
  email : String
  pk : EncodingKey
  pk_id : String
  audience : String
deriving DecidableEq

/-- Constructor of ServiceAccountTokenSource
(service_account_token_source.rs lines 42-54): missing client email and
key id become empty strings, the private key must parse, and a credential
audience overrides the caller audience. -/
def ServiceAccountTokenSource.new (fromRsaPem : String → Option EncodingKey)
    (cred : CredentialsFile) (audience : String) :
    Except AuthError ServiceAccountTokenSource :=
  match try_to_private_key fromRsaPem cred with
  | .error e => .error e
  | .ok pk =>
    .ok { email := unwrap_or_empty cred.client_email,
          pk := pk,
          pk_id := unwrap_or_empty cred.private_key_id,
          audience := (match cred.audience with
            | none => audience
            | some s => s) }

/-- Claim set built by the ServiceAccountTokenSource token method
(service_account_token_source.rs lines 58-70) at signing instant iat. -/
def serviceAccountClaims (src : ServiceAccountTokenSource) (iat : Int) : Claims :=
  { iss := src.email, sub := some src.email, scope := none, aud := src.audience,
    exp := iat + 3600, iat := iat }

/-- ServiceAccountTokenSource token method (service_account_token_source.rs
lines 56-78) at signing instant now; one chrono hour is 3600 seconds. -/
def ServiceAccountTokenSource.token (sign : EncodingKey → String → String)
    (src : ServiceAccountTokenSource) (now : Int) : Token :=
  { access_token := (serviceAccountClaims src now).token sign src.pk src.pk_id,
    token_type := "Bearer",
    expiry := some (now + 3600) }

/-- OAuth2ServiceAccountTokenSource (service_account_token_source.rs lines
89-98); the hyper client field is the external HTTP transport and carries
no information relevant to the claims. -/
structure OAuth2ServiceAccountTokenSource where
  email : String
  delegation_email : Option String
  pk : EncodingKey
  pk_id : String
  scopes : String
  token_url : String
deriving DecidableEq

/-- Constructor of OAuth2ServiceAccountTokenSource
(service_account_token_source.rs lines 100-122). -/
def OAuth2ServiceAccountTokenSource.new (fromRsaPem : String → Option EncodingKey)
    (cred : CredentialsFile) (scopes : String) (delegation_email : Option String) :
    Except AuthError OAuth2ServiceAccountTokenSource :=
  match try_to_private_key fromRsaPem cred with
  | .error e => .error e
  | .ok pk =>
    .ok { email := unwrap_or_empty cred.client_email,
          delegation_email := delegation_email,
          pk := pk,
          pk_id := unwrap_or_empty cred.private_key_id,
          scopes := scopes,
          token_url := (match cred.token_uri with
            | none => TOKEN_URL
            | some s => s) }

/-- Claim set of the JWT assertion built by the
OAuth2ServiceAccountTokenSource token method
(service_account_token_source.rs lines 126-138) at signing instant iat. -/
def oauth2Claims (src : OAuth2ServiceAccountTokenSource) (iat : Int) : Claims :=
  { iss := src.email, sub := src.delegation_email, scope := some src.scopes,
    aud := src.token_url, exp := iat + 3600, iat := iat }

/-- Signed JWT assertion of the OAuth2 exchange
(service_account_token_source.rs lines 130-138). -/
def oauth2Assertion (sign : EncodingKey → String → String)
    (src : OAuth2ServiceAccountTokenSource) (now : Int) : String :=
  (oauth2Claims src now).token sign src.pk src.pk_id

/-- Form-encoded body of the token-endpoint request
(service_account_token_source.rs lines 140-143); the network exchange
itself is performed by the external transport. -/
def oauth2RequestBody (sign : EncodingKey → String → String)
    (src : OAuth2ServiceAccountTokenSource) (now : Int) : String :=
  "grant_type=urn:ietf:params:oauth:grant-type:jwt-bearer&assertion=" ++
    oauth2Assertion sign src now

/-- Option set that passes validation: a GET request with a present
private key, no custom signer, and an expiry 2000 seconds past the epoch. -/
def baseOpts : SignedURLOptions :=
  { google_access_id := "xxx@developer.gserviceaccount.com",
    private_key := [48, 130],
    sign_bytes := none,
    method := "GET",
    expires := 2000,
    content_type := "",
    headers := [],
    query_parameters := [],
    md5 := "",
    insecure := false,
    scheme := .SigningSchemeV4 }

/-- Option set carrying both a private key and a custom signer, with a
non-zero expiry that lies in the past relative to instant 1000. -/
def c2_opts : SignedURLOptions :=
  { baseOpts with sign_bytes := some (), expires := 900 }

/-- Option set whose MD5 field is not valid base64. -/
def c3_opts_bad : SignedURLOptions := { baseOpts with md5 := "not-base64!" }

/-- Option set whose MD5 field is valid base64 of fifteen bytes. -/
def c3_opts_short : SignedURLOptions := { baseOpts with md5 := "AAAAAAAAAAAAAAAAAAAA" }

/-- Option set with a content type and no extension headers. -/
def c4_opts : SignedURLOptions := { baseOpts with content_type := "text/plain" }

/-- Option set with one extension header whose name has an upper-case
letter. -/
def c6_opts_upper : SignedURLOptions := { baseOpts with headers := ["X-Foo:bar"] }

/-- The same option set with the header name spelled in lower case. -/
def c6_opts_lower : SignedURLOptions := { baseOpts with headers := ["x-foo:bar"] }

/-- Concrete OAuth2 token source without a delegation principal. -/
def c9_src : OAuth2ServiceAccountTokenSource :=
  { email := "svc@example.iam", delegation_email := none, pk := ⟨"K"⟩, pk_id := "kid1",
    scopes := "https://www.googleapis.com/auth/cloud-platform",
    token_url := "https://oauth2.googleapis.com/token" }

/-- PEM parser that accepts every key, for concrete instantiation. -/
def fromPemOk : String → Option EncodingKey := fun s => some ⟨s⟩

/-- Credential record missing the client email and the key id but carrying
a parsable private key. -/
def c10_cred : CredentialsFile :=
  { client_email := none, private_key_id := none, private_key := some "PEMKEY",
    audience := none, token_uri := none }

/-- The token source that construction from c10_cred produces. -/
def c10_src : ServiceAccountTokenSource :=
  { email := "", pk := ⟨"PEMKEY"⟩, pk_id := "", audience := "aud" }

/-- C1: the claim says signed_url returns an absolute URL carrying the six
X-Goog query parameters plus caller extras and nothing else; the code
validates the options and then returns the empty string, the URL
construction being a TODO stub, so the result of a validated call is the
empty string and carries no query parameters at all. -/
theorem c1_signed_url_stub :
    signed_url "bucket" "object" baseOpts 1000 = .ok "" := by rfl

/-- C2: the claim says validation accepts only when exactly one signing
means is present and the expiry is strictly after now; the code accepts
an option set carrying both a private key and a custom signer together
with a non-zero expiry that is already in the past, because it only
rejects when both signing means are absent and only compares the expiry
with zero. -/
theorem c2_validate_accepts_invalid :
    validate_options c2_opts 1000 = .ok () := by rfl

/-- C3: when the checks that precede the MD5 check pass, validate_options
rejects a non-empty MD5 value that is not valid base64 with the checksum
error reason, and rejects a valid base64 value whose decoding is not
sixteen bytes long with the distinct checksum-length error reason. -/
theorem c3_md5_error_reasons (opts : SignedURLOptions) (now : Int)
    (h1 : opts.google_access_id ≠ "")
    (h2 : ¬(opts.private_key = [] ∧ opts.sign_bytes = none))
    (h3 : signed_url_methods.contains (strToUpper opts.method) = true)
    (h4 : opts.expires ≠ 0)
    (h5 : opts.md5 ≠ "") :
    (base64Decode opts.md5 = none →
      validate_options opts now = .error (.InvalidOption "storage: invalid MD5 checksum")) ∧
    (∀ v, base64Decode opts.md5 = some v → v.length ≠ 16 →
      validate_options opts now =
        .error (.InvalidOption "storage: invalid MD5 checksum length")) := by
  have h3m : strToUpper opts.method ∈ signed_url_methods := by simpa using h3
  constructor
  · intro hdec
    simp [validate_options, md5_check, h1, h2, h3m, h4, h5, hdec]
  · intro v hv hlen
    simp [validate_options, md5_check, h1, h2, h3m, h4, h5, hv, hlen]

/-- Witness for C3 at two concrete option sets, one whose MD5 value is not
base64 and one whose MD5 value decodes to fifteen bytes. -/
theorem c3_md5_error_reasons_witness :
    validate_options c3_opts_bad 1000 =
      .error (.InvalidOption "storage: invalid MD5 checksum") ∧
    validate_options c3_opts_short 1000 =
      .error (.InvalidOption "storage: invalid MD5 checksum length") := by
  constructor
  · exact (c3_md5_error_reasons c3_opts_bad 1000 (by decide) (by decide) (by decide)
      (by decide) (by decide)).1 (by rfl)
  · exact (c3_md5_error_reasons c3_opts_short 1000 (by decide) (by decide) (by decide)
      (by decide) (by decide)).2 (List.replicate 15 0) (by rfl) (by decide)

/-- C4: the claim says the canonical header entries are joined as
newline-separated name and value lines; the code joins the sorted entries
with a single space, so for a host and a content type the block is one
space-joined line rather than two newline-separated lines. -/
theorem c4_canonical_headers_space_joined :
    canonical_headers "example.com" c4_opts = "content-type:text/plain host:example.com" ∧
    canonical_headers "example.com" c4_opts ≠
      "content-type:text/plain" ++ "\n" ++ "host:example.com" := by
  exact ⟨by rfl, by decide⟩

/-- C5: the claim says the payload-hash token falls back to the
UNSIGNED-PAYLOAD literal when no header named x-goog-content-sha256 is
present; because the code tests is_some on a find_or_first call, which
falls back to the first element of the never-empty header list, the
fallback branch is unreachable and the emitted payload token is empty. -/
theorem c5_payload_token_empty :
    payload_hash_token (header_with_value "example.com" baseOpts) = "" ∧
    payload_hash_token (header_with_value "example.com" baseOpts) ≠ "UNSIGNED-PAYLOAD" := by
  exact ⟨by rfl, by decide⟩

/-- C6: the claim says header name casing never affects the canonical
headers or the signed-header list; the code uses the extension header
names verbatim and never applies v4_sanitize_headers inside signed_url_v4,
so the upper-case and the lower-case spelling of one header produce
different signed-header lists and different canonical header strings. -/
theorem c6_header_casing_changes_output :
    signed_headers c6_opts_upper ≠ signed_headers c6_opts_lower ∧
    canonical_headers "example.com" c6_opts_upper ≠
      canonical_headers "example.com" c6_opts_lower := by
  exact ⟨by decide, by decide⟩

/-- C7: the claim says applying v4_sanitize_headers twice yields the same
list as applying it once; the output loop of the function assigns through
an index of a vector created with capacity but length zero, so the first
well-formed header aborts the program (modelled as none) and a sanitized
list is only ever returned when it is empty. -/
theorem c7_sanitize_headers_aborts :
    v4_sanitize_headers ["a:b"] = none ∧ v4_sanitize_headers [] = some [] := by
  exact ⟨by rfl, by rfl⟩

/-- C8: a token produced by the self-signed source at instant T has token
type Bearer, expiry T plus one hour, and its access token is the signed
JWT itself, whose claim set has issuer and subject the source email,
audience the source audience, issued-at T and expiry T plus 3600 seconds,
with the scope absent; the serialization of that claim set is listed
field by field. -/
theorem c8_self_signed_token (sign : EncodingKey → String → String)
    (src : ServiceAccountTokenSource) (T : Int) :
    (src.token sign T).token_type = "Bearer" ∧
    (src.token sign T).expiry = some (T + 3600) ∧
    (src.token sign T).access_token =
      jwt_encode sign src.pk src.pk_id (serviceAccountClaims src T) ∧
    serviceAccountClaims src T =
      { iss := src.email, sub := some src.email, scope := none, aud := src.audience,
        exp := T + 3600, iat := T } ∧
    serialize_claims (serviceAccountClaims src T) =
      [("iss", Json.str src.email), ("sub", Json.str src.email), ("scope", Json.null),
       ("aud", Json.str src.audience), ("exp", Json.num (T + 3600)), ("iat", Json.num T)] := by
  exact ⟨rfl, rfl, rfl, rfl, rfl⟩

/-- C9 counterexample: for a concrete OAuth2-exchange source constructed
without a delegation principal, the serialized claim set of the assertion
does carry a sub field, with value null, contradicting the claim that no
sub field is present. -/
theorem c9_sub_field_present :
    ("sub", Json.null) ∈ serialize_claims (oauth2Claims c9_src 0) := by decide

/-- C9 amended: for every OAuth2-exchange source without a delegation
principal, the serialized claim set of the assertion lists iss, sub,
scope, aud, exp and iat in declaration order, with the sub field present
and equal to null, because the derived serde instance emits an absent
Option as null rather than omitting the field. -/
theorem c9_sub_serialized_null (src : OAuth2ServiceAccountTokenSource) (T : Int)
    (h : src.delegation_email = none) :
    serialize_claims (oauth2Claims src T) =
      [("iss", Json.str src.email), ("sub", Json.null), ("scope", Json.str src.scopes),
       ("aud", Json.str src.token_url), ("exp", Json.num (T + 3600)), ("iat", Json.num T)] := by
  simp [serialize_claims, oauth2Claims, optStringJson, h]

/-- Witness for the amended C9 theorem at a concrete source and instant. -/
theorem c9_sub_serialized_null_witness :
    serialize_claims (oauth2Claims c9_src 5) =
      [("iss", Json.str "svc@example.iam"), ("sub", Json.null),
       ("scope", Json.str "https://www.googleapis.com/auth/cloud-platform"),
       ("aud", Json.str "https://oauth2.googleapis.com/token"),
       ("exp", Json.num 3605), ("iat", Json.num 5)] :=
  c9_sub_serialized_null c9_src 5 rfl

/-- C10: constructing either token-source variant fails exactly when the
private key is missing or fails to parse, with one of the two typed
errors; a record lacking the client email or the key id is accepted, and
the missing field becomes the empty string in the email and key id of the
source, hence in the issuer claim and the kid header of every token the
source subsequently produces. -/
theorem c10_token_source_construction (fromRsaPem : String → Option EncodingKey)
    (cred : CredentialsFile) (audience scopes : String) (deleg : Option String) :
    ((∃ src, ServiceAccountTokenSource.new fromRsaPem cred audience = .ok src) ↔
      ∃ k pk, cred.private_key = some k ∧ fromRsaPem k = some pk) ∧
    (∀ e, ServiceAccountTokenSource.new fromRsaPem cred audience = .error e →
      e = .NoPrivateKeyFound ∨ e = .KeyRejected) ∧
    (∀ e, OAuth2ServiceAccountTokenSource.new fromRsaPem cred scopes deleg = .error e →
      e = .NoPrivateKeyFound ∨ e = .KeyRejected) ∧
    (∀ src, ServiceAccountTokenSource.new fromRsaPem cred audience = .ok src →
      src.email = unwrap_or_empty cred.client_email ∧
      src.pk_id = unwrap_or_empty cred.private_key_id ∧
      (cred.client_email = none →
        src.email = "" ∧ ∀ T, (serviceAccountClaims src T).iss = "") ∧
      (cred.private_key_id = none → src.pk_id = "")) ∧
    (∀ src, OAuth2ServiceAccountTokenSource.new fromRsaPem cred scopes deleg = .ok src →
      (cred.client_email = none → src.email = "" ∧ ∀ T, (oauth2Claims src T).iss = "") ∧
      (cred.private_key_id = none → src.pk_id = "")) := by
  cases hpk : cred.private_key with
  | none =>
    refine ⟨?_, ?_, ?_, ?_, ?_⟩ <;>
      simp [ServiceAccountTokenSource.new, OAuth2ServiceAccountTokenSource.new,
        try_to_private_key, hpk]
  | some k =>
    cases hfp : fromRsaPem k with
    | none =>
      refine ⟨?_, ?_, ?_, ?_, ?_⟩ <;>
        simp [ServiceAccountTokenSource.new, OAuth2ServiceAccountTokenSource.new,
          try_to_private_key, hpk, hfp]
    | some pk =>
      refine ⟨?_, ?_, ?_, ?_, ?_⟩
      · simp [ServiceAccountTokenSource.new, try_to_private_key, hpk, hfp]
      · simp [ServiceAccountTokenSource.new, try_to_private_key, hpk, hfp]
      · simp [OAuth2ServiceAccountTokenSource.new, try_to_private_key, hpk, hfp]
      · intro src hsrc
        simp [ServiceAccountTokenSource.new, try_to_private_key, hpk, hfp] at hsrc
        subst hsrc
        refine ⟨rfl, rfl, ?_, ?_⟩
        · intro hce
          simp [hce, unwrap_or_empty, serviceAccountClaims]
        · intro hid
          simp [hid, unwrap_or_empty]
      · intro src hsrc
        simp [OAuth2ServiceAccountTokenSource.new, try_to_private_key, hpk, hfp] at hsrc
        subst hsrc
        refine ⟨?_, ?_⟩
        · intro hce
          simp [hce, unwrap_or_empty, oauth2Claims]
        · intro hid
          simp [hid, unwrap_or_empty]

/-- Witness for C10 at a concrete credential record that lacks the client
email and the key id but carries a parsable private key: construction
succeeds and both fields come out empty, as does the issuer claim of a
token produced at instant 7. -/
theorem c10_token_source_construction_witness :
    ServiceAccountTokenSource.new fromPemOk c10_cred "aud" = .ok c10_src ∧
    c10_src.email = "" ∧ c10_src.pk_id = "" ∧
    (serviceAccountClaims c10_src 7).iss = "" := by
  have h := c10_token_source_construction fromPemOk c10_cred "aud" "scopes" none
  have hok : ServiceAccountTokenSource.new fromPemOk c10_cred "aud" = .ok c10_src := rfl
  have h4 := h.2.2.2.1 c10_src hok
  exact ⟨hok, (h4.2.2.1 rfl).1, h4.2.2.2 rfl, (h4.2.2.1 rfl).2 7⟩
